import Mathlib

/-!
Verification of the parameter/UI model of the `python-ui` repository
(`parameter.py`, `genui.py`, `gengui.py`) via a shallow embedding:
Python values that flow through validators become the inductive `PyVal`,
the `Parameter` class becomes a structure, the mutable pieces of the
Tk surface (progress bar, log list, confirm pass) become explicit state
types with step functions translated line by line from the source.
-/

namespace PyUI

/-- Python runtime values that flow through validators and parameter
`value`/`default` fields: strings (raw form text), lists (multi-value
validation results), booleans (checkbox state, flag defaults) and None. -/
inductive PyVal where
  | str (s : String)
  | vlist (l : List PyVal)
  | vbool (b : Bool)
  | vnone
deriving Repr

mutual

/-- Python structural equality (`==`/`!=`) on the values of `PyVal`,
element-wise on lists. -/
def PyVal.beq : PyVal → PyVal → Bool
  | .str a, .str b => a == b
  | .vbool a, .vbool b => a == b
  | .vnone, .vnone => true
  | .vlist a, .vlist b => PyVal.beqList a b
  | _, _ => false

/-- List part of `PyVal.beq`. -/
def PyVal.beqList : List PyVal → List PyVal → Bool
  | [], [] => true
  | x :: xs, y :: ys => PyVal.beq x y && PyVal.beqList xs ys
  | _, _ => false

end

mutual

/-- `PyVal.beq` decides propositional equality. -/
theorem PyVal.beq_iff : (x y : PyVal) → (PyVal.beq x y = true ↔ x = y)
  | .str _, .str _ => by simp [PyVal.beq]
  | .str _, .vlist _ => by simp [PyVal.beq]
  | .str _, .vbool _ => by simp [PyVal.beq]
  | .str _, .vnone => by simp [PyVal.beq]
  | .vlist a, .vlist b => by
      simp only [PyVal.beq, PyVal.vlist.injEq]
      exact PyVal.beqList_iff a b
  | .vlist _, .str _ => by simp [PyVal.beq]
  | .vlist _, .vbool _ => by simp [PyVal.beq]
  | .vlist _, .vnone => by simp [PyVal.beq]
  | .vbool _, .str _ => by simp [PyVal.beq]
  | .vbool _, .vlist _ => by simp [PyVal.beq]
  | .vbool _, .vbool _ => by simp [PyVal.beq]
  | .vbool _, .vnone => by simp [PyVal.beq]
  | .vnone, .str _ => by simp [PyVal.beq]
  | .vnone, .vlist _ => by simp [PyVal.beq]
  | .vnone, .vbool _ => by simp [PyVal.beq]
  | .vnone, .vnone => by simp [PyVal.beq]

/-- `PyVal.beqList` decides propositional equality of lists. -/
theorem PyVal.beqList_iff : (xs ys : List PyVal) → (PyVal.beqList xs ys = true ↔ xs = ys)
  | [], [] => by simp [PyVal.beqList]
  | [], _ :: _ => by simp [PyVal.beqList]
  | _ :: _, [] => by simp [PyVal.beqList]
  | x :: xs, y :: ys => by
      simp only [PyVal.beqList, Bool.and_eq_true, List.cons.injEq]
      exact and_congr (PyVal.beq_iff x y) (PyVal.beqList_iff xs ys)

end

instance : DecidableEq PyVal := fun x y => decidable_of_iff _ (PyVal.beq_iff x y)

/-- The `nargs` configuration of a `Parameter`: an integer, or one of the
argparse strings like "?" (zero or one), "*" (zero or more), "+" (one or
more), as documented at the top of src/parameter.py. -/
inductive Nargs where
  | num (n : Nat)
  | zeroOrOne
  | zeroOrMore
  | oneOrMore
deriving DecidableEq, Repr

/-- A stored validator: either a plain single-argument function (raw form
text to validated value, failure carrying a message), or a bare Python
type object, which the two front ends normalise differently
(`GenericUI.load_cli` line 86, `GenericUI.load_gui` line 108). -/
inductive Verify where
  | vfunc (f : String → Except String PyVal)
  | vtype (typeName : String)

/-- The `Parameter` object of src/parameter.py after construction. `short`
and `long` are stored with their dash prefixes already applied, exactly
as `__init__` stores them. -/
structure Parameter where
  name : String
  short : Option String
  long : Option String
  meta : Option String
  nargs : Nargs
  default : PyVal
  value : PyVal
  widget : String
  help : Option String
  verify : Verify

/-- Python `meta or name` (src/parameter.py line 42): the name stands in
when meta is None or the empty string (both falsy in Python). -/
def orName (metaArg : Option String) (name : String) : String :=
  match metaArg with
  | Option.none => name
  | Option.some s => if s = "" then name else s

/-- True exactly when an `Except` result is an error (a raised exception in
the Python original). -/
def isError : Except String Parameter → Bool
  | .error _ => true
  | .ok _ => false

/-- The short-flag step of `Parameter.__init__` (src/parameter.py lines
29-34): prefix the short flag with "-", fail if it is already in the
process-wide `used_flags` registry, otherwise add it. Returns the
registry after the step. -/
def initShortStep (usedFlags : List String) (name : String)
    (short : Option String) : Except String (List String) :=
  match short with
  | Option.none => .ok usedFlags
  | Option.some s =>
      if ("-" ++ s) ∈ usedFlags then
        .error ("Short flag " ++ s ++ " for parameter " ++ name ++ " is already used")
      else
        .ok (usedFlags ++ ["-" ++ s])

/-- The long-flag step of `Parameter.__init__` (src/parameter.py lines
35-40): same as the short step with a "--" prefix, checked against the
registry as left by the short step. -/
def initLongStep (usedFlags : List String) (name : String)
    (long : Option String) : Except String (List String) :=
  match long with
  | Option.none => .ok usedFlags
  | Option.some l =>
      if ("--" ++ l) ∈ usedFlags then
        .error ("Long flag " ++ l ++ " for parameter " ++ name ++ " is already used")
      else
        .ok (usedFlags ++ ["--" ++ l])

/-- `Parameter.__init__` (src/parameter.py lines 26-52). The short flag is
registered first, then the long flag, then `meta`, `value` and `widget`
are derived, and last the validator arity (the Python
`len(signature(verify).parameters)`, passed here as `verifyArity`) is
checked. The returned list is the `used_flags` registry after the call:
as in the Python code, additions made before a failure are kept, because
`used_flags` is a class attribute mutated in place. -/
def Parameter.init (usedFlags : List String) (name : String)
    (short : Option String) (long : Option String) (metaArg : Option String)
    (nargs : Nargs) (defaultArg : PyVal) (verify : Verify) (verifyArity : Nat)
    (helpArg : Option String) (widget : String) :
    Except String Parameter × List String :=
  match initShortStep usedFlags name short with
  | .error e => (.error e, usedFlags)
  | .ok fl1 =>
    match initLongStep fl1 name long with
    | .error e => (.error e, fl1)
    | .ok fl2 =>
      let metaF : Option String :=
        if long ≠ Option.some name then Option.some (orName metaArg name) else Option.none
      let widgetF : String := if nargs ≠ Nargs.num 0 then widget else "box"
      if verifyArity = 1 then
        (.ok { name := name, short := short.map (fun s => "-" ++ s),
               long := long.map (fun l => "--" ++ l), meta := metaF,
               nargs := nargs, default := defaultArg, value := defaultArg,
               widget := widgetF, help := helpArg, verify := verify }, fl2)
      else
        (.error ("Function for verification of " ++ name ++
                 " needs to have exactly 1 parameter."), fl2)

/-- The identity validator `lambda value: value`, the default `verify`
argument of `Parameter.__init__`. -/
def idVerify : Verify := Verify.vfunc (fun v => .ok (.str v))

/-- The `help_text` class dictionary of `GenericGUI` (src/gengui.py lines
41-46): the placeholder guidance value per widget kind. -/
def help_text (widget : String) : PyVal :=
  if widget = "dir" then .str "Pick a directory..."
  else if widget = "file" then .str "Pick a file..."
  else if widget = "fileordir" then .str "Pick a file or directory..."
  else if widget = "text" then .str "Enter..."
  else if widget = "pass" then .str ""
  else if widget = "box" then .vbool false
  else .vnone

/-- `type_check` in `GenericUI.load_gui` (src/genui.py lines 110-116):
wraps a bare type into an exact type-name check against the raw value.
On the form surface the raw value is always the text of an entry widget,
whose Python type name is "str". -/
def type_check (typeName : String) : String → Except String PyVal :=
  fun value =>
    if "str" ≠ typeName then
      .error (value ++ " is not of type " ++ typeName)
    else
      .ok (.str value)

/-- Python `str.split(',')` on the underlying character list: cuts at
every comma, keeping empty segments, with [""] for the empty string. -/
def splitCommaChars : List Char → List (List Char)
  | [] => [[]]
  | c :: rest =>
    match splitCommaChars rest with
    | [] => [[c]]
    | cur :: gs => if c = ',' then [] :: cur :: gs else (c :: cur) :: gs

/-- Python `str.split(',')`. -/
def splitCommas (s : String) : List String :=
  (splitCommaChars s.data).map (fun cs => String.mk cs)

/-- Python `str.strip()`: drop leading and trailing whitespace. -/
def strip (s : String) : String :=
  String.mk (((s.data.dropWhile Char.isWhitespace).reverse.dropWhile
    Char.isWhitespace).reverse)

/-- The loop body of `list_wrap` (src/genui.py lines 122-126): run the
scalar validator over each piece in order, collecting the results; the
first failure propagates, as the Python exception aborts the loop. -/
def validateEach (f : String → Except String PyVal) :
    List String → Except String (List PyVal)
  | [] => .ok []
  | v :: vs =>
    match f v with
    | .error e => .error e
    | .ok r =>
      match validateEach f vs with
      | .error e => .error e
      | .ok rs => .ok (r :: rs)

/-- `list_wrap` in `GenericUI.load_gui` (src/genui.py lines 121-128):
splits the raw text on commas, strips whitespace from each piece, and
runs the scalar validator on every piece in order, collecting the
results in a list; a failure on any piece propagates. -/
def list_wrap (f : String → Except String PyVal) (values : String) :
    Except String PyVal :=
  (validateEach f ((splitCommas values).map strip)).map PyVal.vlist

/-- The test `parameter.nargs not in [0, 1, '?']` of `GenericUI.load_gui`
(src/genui.py line 118). -/
def multiNargs : Nargs → Bool
  | .num 0 => false
  | .num 1 => false
  | .zeroOrOne => false
  | _ => true

/-- The per-parameter normalisation of `GenericUI.load_gui` (src/genui.py
lines 105-130): a bare type validator becomes an exact type check, a
multi-value arity wraps the validator with `list_wrap`, and the result is
assigned back into the parameter's `verify` attribute. -/
def prepGui (p : Parameter) : Parameter :=
  let f0 : String → Except String PyVal :=
    match p.verify with
    | .vtype t => type_check t
    | .vfunc f => f
  let f1 : String → Except String PyVal :=
    if multiNargs p.nargs then list_wrap f0 else f0
  { p with verify := Verify.vfunc f1 }

/-- Applying a stored validator to the raw text of a form field
(`param.verify(entry.get())` in `GenericGUI.confirm`). After
`load_gui` the stored validator is always a function; a bare type called
on the (string) field text is modelled as the Python call of the type on
a string, which for `str` returns the text unchanged. -/
def applyVerify (v : Verify) (raw : String) : Except String PyVal :=
  match v with
  | .vfunc f => f raw
  | .vtype t =>
      if t = "str" then .ok (.str raw)
      else .error ("cannot interpret " ++ raw ++ " as " ++ t)

/-- The state of one input widget of the form: a checkbutton with its
toggle variable, or an entry with its current text and whether the
error style ("Custom.TEntry", red with an error tooltip) is applied. -/
inductive Entry where
  | box (toggle : Bool)
  | field (raw : String) (errorMarked : Bool)
deriving DecidableEq, Repr

/-- One iteration of the loop in `GenericGUI.confirm` (src/gengui.py lines
220-236): a checkbox stores its toggle directly into `param.value`; any
other widget runs the validator on the raw text — on success, when the
result differs from the widget's placeholder, the error style is
cleared and the value stored; on success equal to the placeholder
nothing changes; on failure the error style is applied and the
`completed` flag (third component) is cleared. -/
def confirmOne (p : Parameter) (e : Entry) : Parameter × Entry × Bool :=
  match e with
  | .box t => ({ p with value := .vbool t }, e, true)
  | .field raw marked =>
    match applyVerify p.verify raw with
    | .ok v =>
        if !PyVal.beq v (help_text p.widget) then
          ({ p with value := v }, Entry.field raw false, true)
        else
          (p, Entry.field raw marked, true)
    | .error _ => (p, Entry.field raw true, false)

/-- The whole loop of `GenericGUI.confirm` over the parameters of the
active mode paired with their entry widgets; returns the updated pairs
and the final `completed` flag. -/
def confirmList (items : List (Parameter × Entry)) :
    List (Parameter × Entry) × Bool :=
  match items with
  | [] => ([], true)
  | (p, e) :: rest =>
    let r := confirmOne p e
    let rec2 := confirmList rest
    ((r.1, r.2.1) :: rec2.1, r.2.2 && rec2.2)

/-- The outcome of one `GenericGUI.confirm` call: the updated
parameter/entry pairs, the `completed` flag, and the three effects taken
when (and only when) `completed` holds — disabling every input,
creating the log window, and releasing the caller blocked in
`get_input` via `event.set` (src/gengui.py lines 238-242). -/
structure ConfirmResult where
  items : List (Parameter × Entry)
  completed : Bool
  inputsDisabled : Bool
  logWindowOpened : Bool
  eventSet : Bool

/-- `GenericGUI.confirm` (src/gengui.py lines 218-242). -/
def confirm (items : List (Parameter × Entry)) : ConfirmResult :=
  let r := confirmList items
  { items := r.1, completed := r.2, inputsDisabled := r.2,
    logWindowOpened := r.2, eventSet := r.2 }

/-- Whether the validator of a field succeeds on its current raw text
(checkboxes never fail, they bypass validation entirely). -/
def validatorOk (p : Parameter) (e : Entry) : Bool :=
  match e with
  | .box _ => true
  | .field raw _ =>
    match applyVerify p.verify raw with
    | .ok _ => true
    | .error _ => false

/-- The surface decision of `GenericUI.run` (src/genui.py lines 33-52):
`script` is the basename of `sys.argv[0]`, `exe` the parent process
image name and `parent_exe` the grandparent process image name as read
through psutil. Returns whether the GUI is loaded, and the argument
list after the "--gui" token is stripped (Python `list.remove` deletes
the first occurrence). -/
def runSelect (script exe parent_exe : String) (argv : List String) :
    Bool × List String :=
  let load_ui : Bool := script == exe && parent_exe == "explorer.exe"
  if "--gui" ∈ argv then (true, argv.erase "--gui")
  else (load_ui, argv)

/-- The two argparse boolean-flag actions used by `GenericUI.load_cli`. -/
inductive FlagAction where
  | store_true
  | store_false
deriving DecidableEq, Repr

/-- The arity-zero branch of `GenericUI.load_cli` (src/genui.py line 72):
`store_true` when `default` is falsy, `store_false` when truthy. -/
def cliFlagAction (defaultTruthy : Bool) : FlagAction :=
  if !defaultTruthy then .store_true else .store_false

/-- Modelled from the argparse library contract (external to this
repository): a `store_true` flag stores True when the flag is present
on the command line and the configured default when absent;
`store_false` symmetrically stores False when present. `load_cli`
forwards `parameter.default` as the configured default whenever it is
not None (src/genui.py lines 76-77). -/
def argparseFlagValue (action : FlagAction) (defaultVal : Bool)
    (present : Bool) : Bool :=
  if present then (match action with | .store_true => true | .store_false => false)
  else defaultVal

/-- The value an arity-zero parameter receives in the callback arguments,
as a function of its (boolean) default and the presence of the flag on
the command line. -/
def cliBoolFlagValue (defaultVal present : Bool) : Bool :=
  argparseFlagValue (cliFlagAction defaultVal) defaultVal present

/-- The progress-bar state of `GenericGUI`: the `processing` flag (true
exactly while the bar is placed, i.e. visible) and the value of the
`progress` IntVar. -/
structure ProgressState where
  processing : Bool
  progress : Int
deriving DecidableEq, Repr

/-- The state right after `create_log_window`: the IntVar starts at 0 and
the bar is `place_forget`-hidden, `processing` is False
(src/gengui.py lines 271-276). -/
def progressInitial : ProgressState := { processing := false, progress := 0 }

/-- `GenericGUI.set_progress` (src/gengui.py lines 278-286): clamp the
percentage into [0, 100]; if the bar is hidden and the clamp is
positive, place (show) the bar; else if the bar is shown and the clamp
is exactly 100, hide it; always store the clamp in the IntVar. -/
def set_progress (s : ProgressState) (percentage : Int) : ProgressState :=
  let clamped : Int := max 0 (min percentage 100)
  if s.processing = false ∧ clamped > 0 then
    { processing := true, progress := clamped }
  else if s.processing = true ∧ clamped = 100 then
    { processing := false, progress := clamped }
  else
    { s with progress := clamped }

/-- The log state of `GenericGUI`: the `msg_buffer` string, the pending
`carriage_return` marker, and the visible entries of the log listbox in
order. -/
structure LogState where
  msg_buffer : String
  carriage_return : Bool
  entries : List String
deriving DecidableEq, Repr

/-- `GenericGUI.log` (src/gengui.py lines 291-307): a fragment other than
"\n" or "\r" is appended to the buffer; otherwise, if a carriage
return is pending the last visible entry is deleted, the pending marker
is set exactly when the fragment is "\r", the buffer is committed as a
new last entry, and the buffer is cleared. -/
def log (s : LogState) (msg : String) : LogState :=
  if msg ≠ "\n" ∧ msg ≠ "\r" then
    { s with msg_buffer := s.msg_buffer ++ msg }
  else
    let entries1 := if s.carriage_return then s.entries.dropLast else s.entries
    { msg_buffer := "",
      carriage_return := msg == "\r",
      entries := entries1 ++ [s.msg_buffer] }

/-- Feeding a sequence of fragments to `GenericGUI.log` starting from the
initial state (empty buffer, no pending carriage return, empty log). -/
def logRun (msgs : List String) : LogState :=
  msgs.foldl log { msg_buffer := "", carriage_return := false, entries := [] }

/-- The registry after a first successful construction that registered the
short flag "a" and the long flag "b". -/
def regAfterP1 : List String :=
  (Parameter.init [] "p1" (Option.some "a") (Option.some "b") Option.none
    (Nargs.num 1) PyVal.vnone idVerify 1 Option.none "text").2

/-- A construction attempt with a fresh short flag "c" but the duplicate
long flag "b": it fails after having registered "-c". -/
def c10Attempt2 : Except String Parameter × List String :=
  Parameter.init regAfterP1 "p2" (Option.some "c") (Option.some "b") Option.none
    (Nargs.num 1) PyVal.vnone idVerify 1 Option.none "text"

/-- A later attempt reusing the short flag "c" that only the failed attempt
above ever registered. -/
def c10Attempt3 : Except String Parameter × List String :=
  Parameter.init c10Attempt2.2 "p3" (Option.some "c") Option.none Option.none
    (Nargs.num 1) PyVal.vnone idVerify 1 Option.none "text"

/-- An attempt with fresh flags "d"/"e" but a two-parameter validator: it
fails after registering both flags. -/
def c10Attempt4 : Except String Parameter × List String :=
  Parameter.init c10Attempt3.2 "p4" (Option.some "d") (Option.some "e") Option.none
    (Nargs.num 1) PyVal.vnone idVerify 2 Option.none "text"

/-- A later attempt reusing the short flag "d" registered by the
wrong-arity failure above. -/
def c10Attempt5 : Except String Parameter × List String :=
  Parameter.init c10Attempt4.2 "p5" (Option.some "d") Option.none Option.none
    (Nargs.num 1) PyVal.vnone idVerify 1 Option.none "text"

/-- The parameter produced by a successful construction with long flag "y"
different from the name "x" and no explicit meta. -/
def c6Sample : Parameter :=
  { name := "x", short := Option.none, long := Option.some "--y",
    meta := Option.some "x", nargs := Nargs.num 1, default := PyVal.vnone,
    value := PyVal.vnone, widget := "text", help := Option.none,
    verify := idVerify }

/-- A free-text parameter with the identity validator, as rendered on the
form surface. -/
def textParam : Parameter :=
  { name := "t", short := Option.none, long := Option.none,
    meta := Option.some "t", nargs := Nargs.num 1, default := PyVal.vnone,
    value := PyVal.vnone, widget := "text", help := Option.none,
    verify := idVerify }

/-- A free-text parameter whose validator always raises. -/
def failParam : Parameter :=
  { textParam with verify := Verify.vfunc (fun _ => .error "bad input") }

/-- A multi-value (nargs "*") parameter with the identity scalar
validator, before the form surface normalises it. -/
def multiParam : Parameter :=
  { name := "xs", short := Option.none, long := Option.none,
    meta := Option.some "xs", nargs := Nargs.zeroOrMore, default := PyVal.vnone,
    value := PyVal.vnone, widget := "text", help := Option.none,
    verify := idVerify }

end PyUI

namespace PyUI

/-- Claim C3: for an arity-zero (boolean flag) ParameterSpec, with default
False absence of the flag yields False and presence yields True; with
default True the polarity inverts. -/
theorem c3_bool_flag_polarity :
    ∀ present : Bool,
      cliBoolFlagValue false present = present ∧
      cliBoolFlagValue true present = !present := by
  decide

/-- Claim C4: the GUI surface is selected iff "--gui" occurs in the
arguments (in which case its first occurrence is removed) or the script
name equals the parent process name while the grandparent process is
explorer.exe; otherwise the CLI surface is selected and the arguments
are untouched. -/
theorem c4_mode_selector :
    ∀ (script exe parent_exe : String) (argv : List String),
      ((runSelect script exe parent_exe argv).1 = true ↔
        ("--gui" ∈ argv ∨ (script = exe ∧ parent_exe = "explorer.exe"))) ∧
      ((runSelect script exe parent_exe argv).2 =
        if "--gui" ∈ argv then argv.erase "--gui" else argv) := by
  intro script exe parent_exe argv
  constructor
  · unfold runSelect
    split
    · simp_all
    · simp_all [Bool.and_eq_true, beq_iff_eq]
  · unfold runSelect
    split <;> simp_all

/-- Claim C10: flag registration is not atomic: the failed construction of
"p2" (duplicate long flag) leaves its fresh short flag "-c" in the
registry, so a later construction with short flag "c" fails although no
live Parameter owns it; the same happens for flags registered before a
wrong-arity validator failure ("p4", flags "-d"/"--e"). -/
theorem c10_registry_not_atomic :
    isError c10Attempt2.1 = true ∧
    c10Attempt2.2 = ["-a", "--b", "-c"] ∧
    isError c10Attempt3.1 = true ∧
    isError c10Attempt4.1 = true ∧
    "-d" ∈ c10Attempt4.2 ∧ "--e" ∈ c10Attempt4.2 ∧
    isError c10Attempt5.1 = true := by
  decide

/-- Claim C6 counterexample: with name "x", a long flag "x" equal to the
name and an explicitly supplied meta "M", construction succeeds but
stores meta None: the explicit meta is discarded, refuting both that an
explicitly supplied meta is kept and that meta is only suppressed when
the long flag differs from the name. -/
theorem c6_counterexample :
    ((Parameter.init [] "x" Option.none (Option.some "x") (Option.some "M")
        (Nargs.num 1) PyVal.vnone idVerify 1 Option.none
        "text").1.toOption.map Parameter.meta) = Option.some Option.none ∧
    ((Parameter.init [] "x" Option.none (Option.some "x") (Option.some "M")
        (Nargs.num 1) PyVal.vnone idVerify 1 Option.none
        "text").1.toOption.map Parameter.meta) ≠
      Option.some (Option.some "M") := by
  constructor
  · rfl
  · decide

/-- Claim C6 amended: the stored meta is None exactly when the long flag
equals the name (even when a meta was explicitly supplied); in every
other case meta defaults to the name when not given and an explicitly
supplied meta is kept. -/
theorem c6_amended :
    ∀ (fl : List String) (nm : String) (sh lo metaArg helpArg : Option String)
      (nargs : Nargs) (d : PyVal) (vf : Verify) (widget : String)
      (p : Parameter),
      (Parameter.init fl nm sh lo metaArg nargs d vf 1 helpArg widget).1 = .ok p →
      p.meta = (if lo ≠ Option.some nm then Option.some (orName metaArg nm)
                else Option.none) := by
  intro fl nm sh lo metaArg helpArg nargs d vf widget p h
  unfold Parameter.init at h
  cases h1 : initShortStep fl nm sh with
  | error e => rw [h1] at h; exact absurd h (by simp)
  | ok fl1 =>
    rw [h1] at h
    dsimp only at h
    cases h2 : initLongStep fl1 nm lo with
    | error e => rw [h2] at h; exact absurd h (by simp)
    | ok fl2 =>
      rw [h2] at h
      simp only [reduceIte] at h
      injection h with h
      subst h
      rfl

/-- Witness for the amended C6 claim at a concrete construction: long flag
"y" differs from the name "x" and no meta is given, so meta defaults to
the name. -/
theorem c6_amended_witness :
    c6Sample.meta = (if (Option.some "y" : Option String) ≠ Option.some "x"
                     then Option.some (orName Option.none "x")
                     else Option.none) :=
  c6_amended [] "x" Option.none (Option.some "y") Option.none Option.none
    (Nargs.num 1) PyVal.vnone idVerify "text" c6Sample rfl

/-- Any element of the registry before `initShortStep` is still in the
registry it returns on success. -/
theorem initShortStep_keeps : ∀ (fl : List String) (nm : String)
    (sh : Option String) (fl1 : List String),
    initShortStep fl nm sh = .ok fl1 → ∀ x ∈ fl, x ∈ fl1 := by
  intro fl nm sh fl1 h x hx
  cases sh with
  | none =>
      simp only [initShortStep] at h
      injection h with h
      rw [← h]; exact hx
  | some s =>
      simp only [initShortStep] at h
      by_cases hmem : ("-" ++ s) ∈ fl
      · rw [if_pos hmem] at h; exact absurd h (by simp)
      · rw [if_neg hmem] at h
        injection h with h
        rw [← h]
        exact List.mem_append_left _ hx

/-- Claim C1: the configuration checks happen eagerly inside the
constructor — a short flag already in the registry fails, a long flag
already in the registry fails, and a validator whose signature does not
take exactly one parameter fails, all with a ValueError, independent of
any later parse or form interaction. -/
theorem c1_eager_config_errors :
    ∀ (fl : List String) (nm s l : String) (sh lo metaArg helpArg : Option String)
      (nargs : Nargs) (d : PyVal) (vf : Verify) (ar : Nat) (widget : String),
      (("-" ++ s) ∈ fl →
        isError (Parameter.init fl nm (Option.some s) lo metaArg nargs d vf ar
          helpArg widget).1 = true) ∧
      (("--" ++ l) ∈ fl →
        isError (Parameter.init fl nm sh (Option.some l) metaArg nargs d vf ar
          helpArg widget).1 = true) ∧
      (ar ≠ 1 →
        isError (Parameter.init fl nm sh lo metaArg nargs d vf ar
          helpArg widget).1 = true) := by
  intro fl nm s l sh lo metaArg helpArg nargs d vf ar widget
  refine ⟨?_, ?_, ?_⟩
  · intro hmem
    unfold Parameter.init initShortStep
    dsimp only
    rw [if_pos hmem]
    rfl
  · intro hmem
    unfold Parameter.init
    cases h1 : initShortStep fl nm sh with
    | error e => rfl
    | ok fl1 =>
      have hmem1 : ("--" ++ l) ∈ fl1 := initShortStep_keeps fl nm sh fl1 h1 _ hmem
      dsimp only
      unfold initLongStep
      dsimp only
      rw [if_pos hmem1]
      rfl
  · intro har
    unfold Parameter.init
    cases h1 : initShortStep fl nm sh with
    | error e => rfl
    | ok fl1 =>
      dsimp only
      cases h2 : initLongStep fl1 nm lo with
      | error e => rfl
      | ok fl2 =>
        dsimp only
        rw [if_neg har]
        rfl

/-- Witness for C1: a duplicate short flag, a duplicate long flag, and a
two-parameter validator each make the constructor fail on concrete
inputs. -/
theorem c1_eager_config_errors_witness :
    isError (Parameter.init ["-a"] "p" (Option.some "a") Option.none Option.none
      (Nargs.num 1) PyVal.vnone idVerify 1 Option.none "text").1 = true ∧
    isError (Parameter.init ["--b"] "p" Option.none (Option.some "b") Option.none
      (Nargs.num 1) PyVal.vnone idVerify 1 Option.none "text").1 = true ∧
    isError (Parameter.init [] "p" Option.none Option.none Option.none
      (Nargs.num 1) PyVal.vnone idVerify 2 Option.none "text").1 = true :=
  ⟨(c1_eager_config_errors ["-a"] "p" "a" "z" Option.none Option.none Option.none
      Option.none (Nargs.num 1) PyVal.vnone idVerify 1 "text").1 (by decide),
   (c1_eager_config_errors ["--b"] "p" "z" "b" Option.none Option.none Option.none
      Option.none (Nargs.num 1) PyVal.vnone idVerify 1 "text").2.1 (by decide),
   (c1_eager_config_errors [] "p" "z" "z" Option.none Option.none Option.none
      Option.none (Nargs.num 1) PyVal.vnone idVerify 2 "text").2.2 (by decide)⟩

/-- Claim C7 counterexample: a single report of 100 from the initial
hidden state takes the first branch of `set_progress` (the clamp is
positive and the bar is hidden), so the bar is placed and stays visible
although the stored clamped value is 100, which is not strictly between
0 and 100. -/
theorem c7_counterexample :
    (set_progress progressInitial 100).processing = true ∧
    (set_progress progressInitial 100).progress = 100 := by
  decide

/-- Claim C7 amended: the reported percentage is always clamped into
[0, 100] before being stored; visibility follows a two-state machine —
the bar stays hidden on a non-positive clamp (in particular for the
initial 0), becomes visible on any positive clamp while hidden, is
hidden again by a clamp of exactly 100 while visible, and stays visible
for any other clamp. Visibility is not equivalent to the stored value
being strictly between 0 and 100. -/
theorem c7_amended :
    ∀ (s : ProgressState) (pct : Int),
      (0 ≤ (set_progress s pct).progress ∧ (set_progress s pct).progress ≤ 100) ∧
      (set_progress s pct).progress = max 0 (min pct 100) ∧
      (s.processing = false → max 0 (min pct 100) ≤ 0 →
        (set_progress s pct).processing = false) ∧
      (s.processing = false → 0 < max 0 (min pct 100) →
        (set_progress s pct).processing = true) ∧
      (s.processing = true → max 0 (min pct 100) = 100 →
        (set_progress s pct).processing = false) ∧
      (s.processing = true → max 0 (min pct 100) ≠ 100 →
        (set_progress s pct).processing = true) := by
  intro s pct
  simp only [set_progress]
  refine ⟨?_, ?_, ?_, ?_, ?_, ?_⟩
  · split
    · constructor <;> simp
    · split
      · constructor <;> simp
      · constructor <;> simp
  · split
    · rfl
    · split
      · rfl
      · rfl
  · intro hp hc
    split
    · omega
    · split
      · simp_all
      · exact hp
  · intro hp hc
    split
    · rfl
    · rename_i h
      exact absurd ⟨hp, hc⟩ h
  · intro hp hc
    split
    · simp_all
    · split
      · rfl
      · rename_i h1 h2
        exact absurd ⟨hp, hc⟩ h2
  · intro hp hc
    split
    · rfl
    · split
      · omega
      · exact hp

/-- Witness for the amended C7 claim: the initial 0 keeps the bar hidden,
a report of 50 shows it, a report of 100 while visible hides it, and a
report of 70 while visible keeps it visible; a report of 250 is clamped
to 100. -/
theorem c7_amended_witness :
    (set_progress { processing := false, progress := 0 } 0).processing = false ∧
    (set_progress { processing := false, progress := 0 } 50).processing = true ∧
    (set_progress { processing := true, progress := 50 } 100).processing = false ∧
    (set_progress { processing := true, progress := 50 } 70).processing = true ∧
    (set_progress { processing := true, progress := 50 } 250).progress = 100 :=
  ⟨(c7_amended { processing := false, progress := 0 } 0).2.2.1 rfl (by decide),
   (c7_amended { processing := false, progress := 0 } 50).2.2.2.1 rfl (by decide),
   (c7_amended { processing := true, progress := 50 } 100).2.2.2.2.1 rfl (by decide),
   (c7_amended { processing := true, progress := 50 } 70).2.2.2.2.2 rfl (by decide),
   by rw [(c7_amended { processing := true, progress := 50 } 250).2.1]; decide⟩

/-- Claim C8: a fragment that is not exactly a line feed or carriage
return is appended to the buffer; a line feed commits the buffer as one
visible entry (replacing the last entry when a carriage return is
pending); a carriage return does the same but marks the next commit to
replace in place; and the fragment sequence "abc", "\r", "def", "\n"
from an empty log yields exactly the single entry "def". -/
theorem c8_log_ingestion :
    (∀ (s : LogState) (msg : String), msg ≠ "\n" → msg ≠ "\r" →
      log s msg = { s with msg_buffer := s.msg_buffer ++ msg }) ∧
    (∀ s : LogState, log s "\n" =
      { msg_buffer := "", carriage_return := false,
        entries := (if s.carriage_return then s.entries.dropLast
                    else s.entries) ++ [s.msg_buffer] }) ∧
    (∀ s : LogState, log s "\r" =
      { msg_buffer := "", carriage_return := true,
        entries := (if s.carriage_return then s.entries.dropLast
                    else s.entries) ++ [s.msg_buffer] }) ∧
    (logRun ["abc", "\r", "def", "\n"]).entries = ["def"] := by
  refine ⟨?_, ?_, ?_, by decide⟩
  · intro s msg h1 h2
    unfold log
    rw [if_pos ⟨h1, h2⟩]
  · intro s
    unfold log
    rw [if_neg (by simp)]
    simp
  · intro s
    unfold log
    rw [if_neg (by simp)]
    simp

/-- Witness for C8: a plain fragment is buffered without committing an
entry, applied at a concrete state. -/
theorem c8_log_ingestion_witness :
    log { msg_buffer := "x", carriage_return := false, entries := [] } "ab" =
      { msg_buffer := "xab", carriage_return := false, entries := [] } :=
  c8_log_ingestion.1 { msg_buffer := "x", carriage_return := false, entries := [] }
    "ab" (by decide) (by decide)

/-- A validator that succeeds on every input makes `validateEach` return
the list of its results, in order. -/
theorem validateEach_all_ok (f : String → Except String PyVal)
    (g : String → PyVal) (hf : ∀ v, f v = .ok (g v)) :
    ∀ l : List String, validateEach f l = .ok (l.map g) := by
  intro l
  induction l with
  | nil => rfl
  | cons x xs ih => simp [validateEach, hf, ih]

/-- Claim C5: for a parameter whose arity allows more than one value, the
validator installed by the form surface splits the raw text on commas,
trims each piece, applies the original scalar validator to each piece
independently and returns the ordered list of results; in particular
"a, b ,c" under an identity validator yields ["a","b","c"]. -/
theorem c5_multi_value_split :
    (∀ (p : Parameter) (f : String → Except String PyVal) (g : String → PyVal)
        (values : String),
      multiNargs p.nargs = true → p.verify = Verify.vfunc f →
      (∀ v : String, f v = .ok (g v)) →
      applyVerify (prepGui p).verify values =
        .ok (.vlist (((splitCommas values).map strip).map g))) ∧
    list_wrap (fun v => .ok (.str v)) "a, b ,c" =
      .ok (.vlist [.str "a", .str "b", .str "c"]) := by
  constructor
  · intro p f g values hmulti hverify hf
    simp only [prepGui, applyVerify, hverify, hmulti, if_pos]
    unfold list_wrap
    rw [validateEach_all_ok f g hf]
    rfl
  · rfl

/-- Witness for C5 at the concrete multi-value parameter and the input of
the spec scenario. -/
theorem c5_multi_value_split_witness :
    applyVerify (prepGui multiParam).verify "a, b ,c" =
      .ok (.vlist [.str "a", .str "b", .str "c"]) :=
  c5_multi_value_split.1 multiParam (fun v => .ok (.str v)) (fun v => .str v)
    "a, b ,c" rfl rfl (fun _ => rfl)

/-- Claim C2 counterexample: a free-text field whose raw text is the
placeholder "Enter..." and which carries an error marker from an
earlier failed pass. The identity validator succeeds, yet the marker is
NOT cleared (the validated value equals the placeholder, so the
clearing branch of `confirm` is skipped), while the pass still
completes and releases the blocking wait. -/
theorem c2_counterexample :
    validatorOk textParam (Entry.field "Enter..." true) = true ∧
    (confirm [(textParam, Entry.field "Enter..." true)]).items.map Prod.snd =
      [Entry.field "Enter..." true] ∧
    (confirm [(textParam, Entry.field "Enter..." true)]).completed = true ∧
    (confirm [(textParam, Entry.field "Enter..." true)]).eventSet = true := by
  decide

/-- The `completed` flag of a confirm pass is exactly the conjunction of
the per-field validator outcomes. -/
theorem confirmList_completed :
    ∀ items : List (Parameter × Entry),
      (confirmList items).2 = items.all (fun pe => validatorOk pe.1 pe.2) := by
  intro items
  induction items with
  | nil => rfl
  | cons pe rest ih =>
    obtain ⟨p, e⟩ := pe
    simp only [confirmList, List.all_cons, ih]
    congr 1
    cases e with
    | box t => rfl
    | field raw marked =>
      simp only [confirmOne, validatorOk]
      cases happly : applyVerify p.verify raw with
      | ok v =>
        dsimp only
        split <;> rfl
      | error err => rfl

/-- Claim C2 amended: on submission every non-checkbox field is passed to
its validator; a failure marks the field and clears `completed`; a
success clears the marker and stores the value only when the validated
value differs from the widget placeholder, and otherwise leaves both
the marker and the stored value untouched; the blocking wait is
released (with inputs disabled and the log surface opened) iff every
field validator succeeded in that pass. -/
theorem c2_amended :
    (∀ items : List (Parameter × Entry),
      (confirm items).eventSet = items.all (fun pe => validatorOk pe.1 pe.2) ∧
      (confirm items).inputsDisabled = (confirm items).eventSet ∧
      (confirm items).logWindowOpened = (confirm items).eventSet ∧
      (confirm items).completed = (confirm items).eventSet) ∧
    (∀ (p : Parameter) (raw : String) (marked : Bool) (v : PyVal),
      applyVerify p.verify raw = .ok v → v ≠ help_text p.widget →
      confirmOne p (Entry.field raw marked) =
        ({ p with value := v }, Entry.field raw false, true)) ∧
    (∀ (p : Parameter) (raw : String) (marked : Bool) (v : PyVal),
      applyVerify p.verify raw = .ok v → v = help_text p.widget →
      confirmOne p (Entry.field raw marked) =
        (p, Entry.field raw marked, true)) ∧
    (∀ (p : Parameter) (raw : String) (marked : Bool) (err : String),
      applyVerify p.verify raw = .error err →
      confirmOne p (Entry.field raw marked) =
        (p, Entry.field raw true, false)) := by
  refine ⟨?_, ?_, ?_, ?_⟩
  · intro items
    exact ⟨confirmList_completed items, rfl, rfl, rfl⟩
  · intro p raw marked v h1 hne
    have hb : PyVal.beq v (help_text p.widget) = false :=
      Bool.eq_false_iff.2 (fun hbe => hne ((PyVal.beq_iff _ _).1 hbe))
    simp [confirmOne, h1, hb]
  · intro p raw marked v h1 heq
    have hb : PyVal.beq v (help_text p.widget) = true :=
      (PyVal.beq_iff _ _).2 heq
    simp [confirmOne, h1, hb]
  · intro p raw marked err h1
    simp [confirmOne, h1]

/-- Witness for the amended C2 claim: a success away from the placeholder
clears the marker and stores the value, a success equal to the
placeholder changes nothing, and a failure marks the field and clears
`completed`. -/
theorem c2_amended_witness :
    confirmOne textParam (Entry.field "hi" true) =
      ({ textParam with value := .str "hi" }, Entry.field "hi" false, true) ∧
    confirmOne textParam (Entry.field "Enter..." true) =
      (textParam, Entry.field "Enter..." true, true) ∧
    confirmOne failParam (Entry.field "hi" false) =
      (failParam, Entry.field "hi" true, false) :=
  ⟨c2_amended.2.1 textParam "hi" true (.str "hi") rfl (by decide),
   c2_amended.2.2.1 textParam "Enter..." true (.str "Enter...") rfl (by decide),
   c2_amended.2.2.2 failParam "hi" false "bad input" rfl⟩

/-- Claim C9 counterexample: the form adapter does NOT leave the validator
field unchanged — for a multi-value parameter, `load_gui` overwrites
`verify` with the list-wrapped validator, whose behaviour on the raw
text "a" differs from the original scalar validator. -/
theorem c9_counterexample :
    applyVerify (prepGui multiParam).verify "a" = .ok (.vlist [.str "a"]) ∧
    applyVerify multiParam.verify "a" = .ok (.str "a") ∧
    applyVerify (prepGui multiParam).verify "a" ≠
      applyVerify multiParam.verify "a" := by
  refine ⟨rfl, rfl, ?_⟩
  intro h
  rw [show applyVerify (prepGui multiParam).verify "a" =
        .ok (.vlist [.str "a"]) from rfl,
      show applyVerify multiParam.verify "a" = .ok (.str "a") from rfl] at h
  exact absurd (Except.ok.inj h) (by decide)

/-- Claim C9 amended: the form adapter leaves every field except `verify`
(rewritten once at load time) and `value` unchanged: `prepGui`
preserves all fields but `verify`, and one confirm step preserves all
fields but `value`. -/
theorem c9_amended :
    (∀ p : Parameter,
      (prepGui p).name = p.name ∧ (prepGui p).short = p.short ∧
      (prepGui p).long = p.long ∧ (prepGui p).meta = p.meta ∧
      (prepGui p).nargs = p.nargs ∧ (prepGui p).default = p.default ∧
      (prepGui p).help = p.help ∧ (prepGui p).widget = p.widget ∧
      (prepGui p).value = p.value) ∧
    (∀ (p : Parameter) (e : Entry),
      (confirmOne p e).1.name = p.name ∧ (confirmOne p e).1.short = p.short ∧
      (confirmOne p e).1.long = p.long ∧ (confirmOne p e).1.meta = p.meta ∧
      (confirmOne p e).1.nargs = p.nargs ∧
      (confirmOne p e).1.default = p.default ∧
      (confirmOne p e).1.help = p.help ∧ (confirmOne p e).1.widget = p.widget ∧
      (confirmOne p e).1.verify = p.verify) := by
  constructor
  · intro p
    exact ⟨rfl, rfl, rfl, rfl, rfl, rfl, rfl, rfl, rfl⟩
  · intro p e
    cases e with
    | box t => exact ⟨rfl, rfl, rfl, rfl, rfl, rfl, rfl, rfl, rfl⟩
    | field raw marked =>
      cases happly : applyVerify p.verify raw with
      | ok v =>
        simp only [confirmOne, happly]
        split <;> exact ⟨rfl, rfl, rfl, rfl, rfl, rfl, rfl, rfl, rfl⟩
      | error err =>
        simp [confirmOne, happly]

end PyUI
